import Mathlib

/-!
Shallow embedding of the sportsdataverse-js sports-data client
(`src/app/services/nhl.service.js` and the unnamed NBA service module).

Each service operation is split into the part that builds the outbound
request (URL and query-parameter mapping; the transport `axios.get` is an
external collaborator and is not modelled) and the pure projection applied
to the decoded JSON response.  JavaScript runtime values are modelled by
`JsVal`; property access, property assignment, destructuring with
defaults, `parseInt`, template-literal string conversion and truthiness
are modelled by the `js*` functions below, faithful to JS semantics on
the value shapes the client exercises.

A response body is never mutated between the field reads of one
projector, so a path the source reads repeatedly inside a single object
literal (such as `res.data.header`) is bound once and shared; this
preserves both the field values and the first-error behaviour of the JS
object literal, whose field expressions evaluate top to bottom.
-/

/-- Model of a JavaScript runtime value as exchanged with the JSON API:
`undefined` and `null` are the two JS bottom values, `nan` is the
not-a-number sentinel produced by a failed numeric coercion, `num`
covers the (integer) numbers the client handles, and `arr`/`obj` are
JSON arrays and objects, an object being an ordered association list of
string keys. -/
inductive JsVal : Type where
  | undefined : JsVal
  | null : JsVal
  | nan : JsVal
  | bool : Bool → JsVal
  | num : Int → JsVal
  | str : String → JsVal
  | arr : List JsVal → JsVal
  | obj : List (String × JsVal) → JsVal

/-- Property lookup in an object's field list: the first binding wins and
a missing key reads as JS `undefined`. -/
def getEntry : List (String × JsVal) → String → JsVal
  | [], _ => .undefined
  | (k', v) :: fs, k => if k' = k then v else getEntry fs k

/-- Property assignment on an object's field list: an existing binding is
overwritten in place, a fresh key is appended at the end (JS property
set order). -/
def setEntry : List (String × JsVal) → String → JsVal → List (String × JsVal)
  | [], k, v => [(k, v)]
  | (k', v') :: fs, k, v => if k' = k then (k', v) :: fs else (k', v') :: setEntry fs k v

/-- Whether an own property named `k` is present (only objects carry own
properties in this model). -/
def hasKey : JsVal → String → Bool
  | .obj fs, k => fs.any (fun e => e.1 = k)
  | _, _ => false

/-- Key set of an object value, in binding order. -/
def jsKeys : JsVal → List String
  | .obj fs => fs.map Prod.fst
  | _ => []

/-- Whether reading a property of this value succeeds in JS: reading a
property of `undefined` or `null` throws a TypeError, while every other
value tolerates property access. -/
def jsReadable : JsVal → Bool
  | .undefined => false
  | .null => false
  | _ => true

/-- String conversion performed by a JS template literal for the values
this client interpolates (array element joining is never exercised by
the client and is left as the empty string). -/
def jsTemplate : JsVal → String
  | .undefined => "undefined"
  | .null => "null"
  | .nan => "NaN"
  | .bool b => if b then "true" else "false"
  | .num n => toString n
  | .str s => s
  | .arr _ => ""
  | .obj _ => "[object Object]"

/-- Value produced by reading property `k` of `v` when the read succeeds:
on an object the field list is consulted; on any other readable value the
result is `undefined` (the client never reads built-in properties). -/
def jsGetD (v : JsVal) (k : String) : JsVal :=
  match v with
  | .obj fs => getEntry fs k
  | _ => .undefined

/-- JS property read `v.k`: a TypeError on `undefined`/`null`, otherwise
the field value, or `undefined` when the key is absent. -/
def jsGet (v : JsVal) (k : String) : Except String JsVal :=
  if jsReadable v then .ok (jsGetD v k)
  else .error ("TypeError: cannot read properties of " ++ jsTemplate v ++ " (reading " ++ k ++ ")")

/-- Element produced by indexing a readable value: out-of-range and
non-array indexing read as `undefined`. -/
def jsIndexD (v : JsVal) (i : Nat) : JsVal :=
  match v with
  | .arr xs => xs.getD i .undefined
  | _ => .undefined

/-- JS array index `v[i]`: a TypeError on `undefined`/`null`, otherwise
the element, or `undefined` out of range or on a non-array. -/
def jsIndex (v : JsVal) (i : Nat) : Except String JsVal :=
  if jsReadable v then .ok (jsIndexD v i)
  else .error ("TypeError: cannot read properties of " ++ jsTemplate v ++ " (reading an index)")

/-- JS property assignment `v.k = w` as used on the box-score documents:
it updates an object's binding and is a TypeError on any non-object (the
service modules run as ES modules, whose strict mode also rejects
property creation on primitives). -/
def jsSet (v : JsVal) (k : String) (w : JsVal) : Except String JsVal :=
  match v with
  | .obj fs => .ok (.obj (setEntry fs k w))
  | _ => .error ("TypeError: cannot create property " ++ k)

/-- Numeric value of a digit string. -/
def digitsVal (cs : List Char) : Nat :=
  cs.foldl (fun acc c => acc * 10 + (c.toNat - 48)) 0

/-- Model of the JS global `parseInt` on the values the client feeds it:
an integer number is returned unchanged, a string is parsed as an
optional sign followed by its longest digit prefix after leading
whitespace (no digits parse to NaN), and every other value — including
`undefined` and `null`, whose string forms start with no digit — yields
the NaN sentinel. -/
def jsParseInt : JsVal → JsVal
  | .num n => .num n
  | .str s =>
      match s.toList.dropWhile Char.isWhitespace with
      | '-' :: rest =>
          let ds := rest.takeWhile Char.isDigit
          if ds.isEmpty then .nan else .num (-(digitsVal ds : Int))
      | '+' :: rest =>
          let ds := rest.takeWhile Char.isDigit
          if ds.isEmpty then .nan else .num (digitsVal ds)
      | rest =>
          let ds := rest.takeWhile Char.isDigit
          if ds.isEmpty then .nan else .num (digitsVal ds)
  | _ => .nan

/-- JS truthiness of the values the client tests with `&&`. -/
def truthy : JsVal → Bool
  | .undefined => false
  | .null => false
  | .nan => false
  | .bool b => b
  | .num n => n != 0
  | .str s => s != ""
  | .arr _ => true
  | .obj _ => true

/-- JS comparison `v <= b` on a `parseInt` result: every comparison
against NaN is false. -/
def jsLeNum : JsVal → Int → Bool
  | .num n, b => n ≤ b
  | _, _ => false

/-- The month/day fragment
`parseInt(x) <= 9 ? "0" + parseInt(x) : parseInt(x)` shared by the
template literals that build a `dates` value. -/
def padDate (v : JsVal) : String :=
  let p := jsParseInt v
  if jsLeNum p 9 then "0" ++ jsTemplate p else jsTemplate p

/-- The `YYYYMMDD` template fragment of the schedule and scoreboard
operations: the year is interpolated raw, month and day through
`padDate`. -/
def datesFragment (year month day : JsVal) : String :=
  jsTemplate year ++ padDate month ++ padDate day

/-- Destructuring `({ k = dflt })` of an argument value: a TypeError on
`undefined`/`null`, otherwise the property is read and the default is
substituted exactly when the property value is `undefined`. -/
def jsDestr (a : JsVal) (k : String) (dflt : JsVal) : Except String JsVal :=
  match a with
  | .undefined => .error ("TypeError: cannot destructure property " ++ k ++ " of undefined")
  | .null => .error ("TypeError: cannot destructure property " ++ k ++ " of null")
  | v => match jsGetD v k with
    | .undefined => .ok dflt
    | w => .ok w

/-- A resolved outbound request: the URL (which may already embed a query
string) and the query-parameter mapping passed alongside it. -/
structure QuerySpec : Type where
  url : String
  params : List (String × JsVal)

namespace nhl

/-- Request built by `nhl.getPlayByPlay` for a game id. -/
def getPlayByPlayQuery (id : JsVal) : QuerySpec :=
  { url := "http://site.api.espn.com/apis/site/v2/sports/hockey/nhl/summary"
    params := [("event", id)] }

/-- Projection applied by `nhl.getPlayByPlay` to the decoded response
body `res.data`. -/
def getPlayByPlayProject (d : JsVal) : Except String JsVal := do
  let header ← jsGet d "header"
  let competitions ← jsGet header "competitions"
  let c0 ← jsIndex competitions 0
  let teams ← jsGet c0 "competitors"
  let hid ← jsGet header "id"
  let plays ← jsGet d "plays"
  let onIce ← jsGet d "onIce"
  let season ← jsGet header "season"
  let boxScore ← jsGet d "boxscore"
  let seasonSeries ← jsGet d "seasonseries"
  let standings ← jsGet d "standings"
  pure (.obj [("teams", teams), ("id", jsParseInt hid), ("plays", plays),
    ("onIce", onIce), ("competitions", competitions), ("season", season),
    ("boxScore", boxScore), ("seasonSeries", seasonSeries),
    ("standings", standings)])

/-- Request built by `nhl.getBoxScore` for a game id. -/
def getBoxScoreQuery (id : JsVal) : QuerySpec :=
  { url := "http://site.api.espn.com/apis/site/v2/sports/hockey/nhl/summary"
    params := [("event", id)] }

/-- Projection applied by `nhl.getBoxScore`: the box-score sub-document
is taken whole and its `id` property is assigned the parsed header id. -/
def getBoxScoreProject (d : JsVal) : Except String JsVal := do
  let game ← jsGet d "boxscore"
  let header ← jsGet d "header"
  let hid ← jsGet header "id"
  jsSet game "id" (jsParseInt hid)

/-- Request built by `nhl.getSummary` for a game id. -/
def getSummaryQuery (id : JsVal) : QuerySpec :=
  { url := "http://site.api.espn.com/apis/site/v2/sports/hockey/nhl/summary"
    params := [("event", id)] }

/-- Projection applied by `nhl.getSummary` to the decoded response body. -/
def getSummaryProject (d : JsVal) : Except String JsVal := do
  let boxScore ← jsGet d "boxscore"
  let gameInfo ← jsGet d "gameInfo"
  let header ← jsGet d "header"
  let competitions ← jsGet header "competitions"
  let c0 ← jsIndex competitions 0
  let teams ← jsGet c0 "competitors"
  let hid ← jsGet header "id"
  let plays ← jsGet d "plays"
  let onIce ← jsGet d "onIce"
  let leaders ← jsGet d "leaders"
  let season ← jsGet header "season"
  let seasonSeries ← jsGet d "seasonseries"
  let standings ← jsGet d "standings"
  pure (.obj [("boxScore", boxScore), ("gameInfo", gameInfo),
    ("header", header), ("teams", teams), ("id", jsParseInt hid),
    ("plays", plays), ("onIce", onIce), ("leaders", leaders),
    ("competitions", competitions), ("season", season),
    ("seasonSeries", seasonSeries), ("standings", standings)])

/-- Request built by `nhl.getPicks` for a game id. -/
def getPicksQuery (id : JsVal) : QuerySpec :=
  { url := "http://site.api.espn.com/apis/site/v2/sports/hockey/nhl/summary"
    params := [("event", id)] }

/-- Projection applied by `nhl.getPicks` to the decoded response body. -/
def getPicksProject (d : JsVal) : Except String JsVal := do
  let header ← jsGet d "header"
  let hid ← jsGet header "id"
  let gameInfo ← jsGet d "gameInfo"
  let leaders ← jsGet d "leaders"
  let competitions ← jsGet header "competitions"
  let c0 ← jsIndex competitions 0
  let teams ← jsGet c0 "competitors"
  let pickcenter ← jsGet d "winprobability"
  let againstTheSpread ← jsGet d "againstTheSpread"
  let odds ← jsGet d "odds"
  let seasonSeries ← jsGet d "seasonseries"
  let season ← jsGet header "season"
  let standings ← jsGet d "standings"
  pure (.obj [("id", jsParseInt hid), ("gameInfo", gameInfo),
    ("leaders", leaders), ("header", header), ("teams", teams),
    ("competitions", competitions), ("pickcenter", pickcenter),
    ("againstTheSpread", againstTheSpread), ("odds", odds),
    ("seasonSeries", seasonSeries), ("season", season),
    ("standings", standings)])

/-- Request built by `nhl.getSchedule` from its options object; `year`,
`month` and `day` destructure with default `null` and the date fragment
is embedded directly in the URL. -/
def getScheduleQuery (a : JsVal) : Except String QuerySpec := do
  let year ← jsDestr a "year" .null
  let month ← jsDestr a "month" .null
  let day ← jsDestr a "day" .null
  pure { url := "http://cdn.espn.com/core/nhl/schedule?dates=" ++ datesFragment year month day
         params := [("xhr", .num 1), ("render", .bool false),
           ("device", .str "desktop"), ("userab", .num 18)] }

/-- Projection applied by `nhl.getSchedule`: `res.data.content.schedule`. -/
def getScheduleProject (d : JsVal) : Except String JsVal := do
  let content ← jsGet d "content"
  jsGet content "schedule"

/-- Request built by `nhl.getScoreboard` from its options object; the
`dates` parameter is added only when year, month and day are all
truthy. -/
def getScoreboardQuery (a : JsVal) : Except String QuerySpec := do
  let year ← jsDestr a "year" .undefined
  let month ← jsDestr a "month" .undefined
  let day ← jsDestr a "day" .undefined
  let limit ← jsDestr a "limit" (.num 300)
  let ps := if truthy year && truthy month && truthy day then
      [("limit", limit), ("dates", JsVal.str (datesFragment year month day))]
    else [("limit", limit)]
  pure { url := "http://site.api.espn.com/apis/site/v2/sports/hockey/nhl/scoreboard"
         params := ps }

/-- Projection applied by `nhl.getScoreboard`: the full response body. -/
def getScoreboardProject (d : JsVal) : Except String JsVal := .ok d

/-- The conditional
`group === 'league' ? 1 : group === 'conference' ? 2 : 3` of
`nhl.getStandings`: strict equality against a non-string is false, so
every non-matching value reaches the final branch. -/
def groupId : JsVal → Int
  | .str s => if s = "league" then 1 else if s = "conference" then 2 else 3
  | _ => 3

/-- Request built by `nhl.getStandings`; the system-clock default
`new Date().getFullYear()` is modelled by the explicit `currentYear`
argument. -/
def getStandingsQuery (currentYear : Int) (a : JsVal) : Except String QuerySpec := do
  let year ← jsDestr a "year" (.num currentYear)
  let group ← jsDestr a "group" (.str "league")
  pure { url := "https://site.web.api.espn.com/apis/v2/sports/hockey/nhl/standings"
         params := [("region", .str "us"), ("lang", .str "en"),
           ("contentorigin", .str "espn"), ("type", .num 1),
           ("level", .num (groupId group)),
           ("sort", .str "playoffseed:asc,points:desc,gamesplayed:asc,rotwins:desc"),
           ("season", year)] }

/-- Projection applied by `nhl.getStandings`: the full response body. -/
def getStandingsProject (d : JsVal) : Except String JsVal := .ok d

/-- Request built by `nhl.getTeamList`. -/
def getTeamListQuery : QuerySpec :=
  { url := "http://site.api.espn.com/apis/site/v2/sports/hockey/nhl/teams"
    params := [("limit", .num 1000)] }

/-- Request built by `nhl.getTeamInfo` for a team id. -/
def getTeamInfoQuery (id : JsVal) : QuerySpec :=
  { url := "http://site.api.espn.com/apis/site/v2/sports/hockey/nhl/teams/" ++ jsTemplate id
    params := [] }

/-- Request built by `nhl.getTeamPlayers` for a team id. -/
def getTeamPlayersQuery (id : JsVal) : QuerySpec :=
  { url := "http://site.api.espn.com/apis/site/v2/sports/hockey/nhl/teams/" ++ jsTemplate id
    params := [("enable", .str "roster")] }

/-- Projection applied by `nhl.getTeamList`: the full response body. -/
def getTeamListProject (d : JsVal) : Except String JsVal := .ok d

/-- Projection applied by `nhl.getTeamInfo`: the full response body. -/
def getTeamInfoProject (d : JsVal) : Except String JsVal := .ok d

/-- Projection applied by `nhl.getTeamPlayers`: the full response body. -/
def getTeamPlayersProject (d : JsVal) : Except String JsVal := .ok d

end nhl

namespace nba

/-- Request built by `nba.getPlayByPlay` for a game id (the legacy CDN
host; `render` is the string literal here). -/
def getPlayByPlayQuery (id : JsVal) : QuerySpec :=
  { url := "http://cdn.espn.com/core/nba/playbyplay"
    params := [("gameId", id), ("xhr", .num 1), ("render", .str "false"),
      ("userab", .num 18)] }

/-- Projection applied by `nba.getPlayByPlay` to the decoded response
body: every source path sits under `gamepackageJSON`, and the `id` field
is the raw header id with no integer coercion. -/
def getPlayByPlayProject (d : JsVal) : Except String JsVal := do
  let gp ← jsGet d "gamepackageJSON"
  let header ← jsGet gp "header"
  let competitions ← jsGet header "competitions"
  let c0 ← jsIndex competitions 0
  let teams ← jsGet c0 "competitors"
  let hid ← jsGet header "id"
  let plays ← jsGet gp "plays"
  let season ← jsGet header "season"
  let boxScore ← jsGet gp "boxscore"
  let seasonSeries ← jsGet gp "seasonseries"
  let standings ← jsGet gp "standings"
  pure (.obj [("teams", teams), ("id", hid), ("plays", plays),
    ("competitions", competitions), ("season", season),
    ("boxScore", boxScore), ("seasonSeries", seasonSeries),
    ("standings", standings)])

/-- Request built by `nba.getBoxScore` for a game id. -/
def getBoxScoreQuery (id : JsVal) : QuerySpec :=
  { url := "http://cdn.espn.com/core/nba/boxscore"
    params := [("gameId", id), ("xhr", .num 1), ("render", .bool false),
      ("device", .str "desktop"), ("userab", .num 18)] }

/-- Projection applied by `nba.getBoxScore`: the box-score sub-document
under `gamepackageJSON` is taken whole and its `id` property is assigned
the top-level `gameId` of the body, verbatim. -/
def getBoxScoreProject (d : JsVal) : Except String JsVal := do
  let gp ← jsGet d "gamepackageJSON"
  let game ← jsGet gp "boxscore"
  let gid ← jsGet d "gameId"
  jsSet game "id" gid

/-- Request built by `nba.getSummary` for a game id. -/
def getSummaryQuery (id : JsVal) : QuerySpec :=
  { url := "http://site.api.espn.com/apis/site/v2/sports/basketball/nba/summary"
    params := [("event", id)] }

/-- Projection applied by `nba.getSummary`: `boxScore`, `gameInfo`,
`header`, `winProbability` and `leaders` read top-level paths while the
remaining fields read under `gamepackageJSON`; the `id` field is the raw
`gamepackageJSON` header id with no integer coercion. -/
def getSummaryProject (d : JsVal) : Except String JsVal := do
  let boxScore ← jsGet d "boxscore"
  let gameInfo ← jsGet d "gameInfo"
  let header ← jsGet d "header"
  let gp ← jsGet d "gamepackageJSON"
  let gpHeader ← jsGet gp "header"
  let competitions ← jsGet gpHeader "competitions"
  let c0 ← jsIndex competitions 0
  let teams ← jsGet c0 "competitors"
  let hid ← jsGet gpHeader "id"
  let plays ← jsGet gp "plays"
  let winProbability ← jsGet d "winprobability"
  let leaders ← jsGet d "leaders"
  let season ← jsGet gpHeader "season"
  let seasonSeries ← jsGet gp "seasonseries"
  let standings ← jsGet gp "standings"
  pure (.obj [("boxScore", boxScore), ("gameInfo", gameInfo),
    ("header", header), ("teams", teams), ("id", hid), ("plays", plays),
    ("winProbability", winProbability), ("leaders", leaders),
    ("competitions", competitions), ("season", season),
    ("seasonSeries", seasonSeries), ("standings", standings)])

/-- Request built by `nba.getPicks` for a game id. -/
def getPicksQuery (id : JsVal) : QuerySpec :=
  { url := "http://site.api.espn.com/apis/site/v2/sports/basketball/nba/summary"
    params := [("event", id)] }

/-- Projection applied by `nba.getPicks`: all paths are top-level, the
`id` field is the parsed header id, and `winProbability` and
`pickcenter` both read `res.data.winprobability`. -/
def getPicksProject (d : JsVal) : Except String JsVal := do
  let header ← jsGet d "header"
  let hid ← jsGet header "id"
  let gameInfo ← jsGet d "gameInfo"
  let leaders ← jsGet d "leaders"
  let competitions ← jsGet header "competitions"
  let c0 ← jsIndex competitions 0
  let teams ← jsGet c0 "competitors"
  let winProbability ← jsGet d "winprobability"
  let againstTheSpread ← jsGet d "againstTheSpread"
  let odds ← jsGet d "odds"
  let seasonSeries ← jsGet d "seasonseries"
  let season ← jsGet header "season"
  let standings ← jsGet d "standings"
  pure (.obj [("id", jsParseInt hid), ("gameInfo", gameInfo),
    ("leaders", leaders), ("header", header), ("teams", teams),
    ("competitions", competitions), ("winProbability", winProbability),
    ("pickcenter", winProbability),
    ("againstTheSpread", againstTheSpread), ("odds", odds),
    ("seasonSeries", seasonSeries), ("season", season),
    ("standings", standings)])

/-- Request built by `nba.getSchedule` from its options object. -/
def getScheduleQuery (a : JsVal) : Except String QuerySpec := do
  let year ← jsDestr a "year" .null
  let month ← jsDestr a "month" .null
  let day ← jsDestr a "day" .null
  pure { url := "http://cdn.espn.com/core/nba/schedule?dates=" ++ datesFragment year month day
         params := [("xhr", .num 1), ("render", .bool false),
           ("device", .str "desktop"), ("userab", .num 18)] }

/-- Projection applied by `nba.getSchedule`: `res.data.content.schedule`. -/
def getScheduleProject (d : JsVal) : Except String JsVal := do
  let content ← jsGet d "content"
  jsGet content "schedule"

/-- Request built by `nba.getScoreboard` from its options object: unlike
the hockey sibling, the `dates` value is embedded unconditionally in the
URL itself, with `year`, `month` and `day` defaulting to `null`. -/
def getScoreboardQuery (a : JsVal) : Except String QuerySpec := do
  let year ← jsDestr a "year" .null
  let month ← jsDestr a "month" .null
  let day ← jsDestr a "day" .null
  let limit ← jsDestr a "limit" (.num 300)
  pure { url := "http://site.api.espn.com/apis/site/v2/sports/basketball/nba/scoreboard?dates=" ++ datesFragment year month day
         params := [("limit", limit)] }

/-- Projection applied by `nba.getScoreboard`: the full response body. -/
def getScoreboardProject (d : JsVal) : Except String JsVal := .ok d

/-- Request built by `nba.getStandings`; the system-clock default
`new Date().getFullYear()` is modelled by the explicit `currentYear`
argument, and year and group are embedded as URL path segments. -/
def getStandingsQuery (currentYear : Int) (a : JsVal) : Except String QuerySpec := do
  let year ← jsDestr a "year" (.num currentYear)
  let group ← jsDestr a "group" (.str "league")
  pure { url := "http://cdn.espn.com/core/nba/standings/_/season/" ++ jsTemplate year ++ "/group/" ++ jsTemplate group
         params := [("xhr", .num 1), ("render", .bool false),
           ("device", .str "desktop"), ("userab", .num 18)] }

/-- Projection applied by `nba.getStandings`: the source returns
`res.content.standings.groups`, reading `content` off the axios response
object `res` itself rather than off the decoded body `res.data`, so this
projection takes the whole response object. -/
def getStandingsProject (res : JsVal) : Except String JsVal := do
  let content ← jsGet res "content"
  let standings ← jsGet content "standings"
  jsGet standings "groups"

/-- Request built by `nba.getTeamList`. -/
def getTeamListQuery : QuerySpec :=
  { url := "http://site.api.espn.com/apis/site/v2/sports/basketball/nba/teams"
    params := [("limit", .num 1000)] }

/-- Request built by `nba.getTeamInfo` for a team id. -/
def getTeamInfoQuery (id : JsVal) : QuerySpec :=
  { url := "http://site.api.espn.com/apis/site/v2/sports/basketball/nba/teams/" ++ jsTemplate id
    params := [] }

/-- Request built by `nba.getTeamPlayers` for a team id. -/
def getTeamPlayersQuery (id : JsVal) : QuerySpec :=
  { url := "http://site.api.espn.com/apis/site/v2/sports/basketball/nba/teams/" ++ jsTemplate id
    params := [("enable", .str "roster")] }

/-- Projection applied by `nba.getTeamList`: the full response body. -/
def getTeamListProject (d : JsVal) : Except String JsVal := .ok d

/-- Projection applied by `nba.getTeamInfo`: the full response body. -/
def getTeamInfoProject (d : JsVal) : Except String JsVal := .ok d

/-- Projection applied by `nba.getTeamPlayers`: the full response body. -/
def getTeamPlayersProject (d : JsVal) : Except String JsVal := .ok d

end nba

/-- Shape of an axios response object as handed to the service code: the
decoded body sits under `data` beside the transport metadata, and no
`content` key is ever supplied. -/
def mkAxiosResponse (d : JsVal) (status : Int) : JsVal :=
  .obj [("data", d), ("status", .num status), ("statusText", .str "OK"),
    ("headers", .obj []), ("config", .obj []), ("request", .obj [])]

/-- Documented output field list of the summary operation, written from
the spec's external-interface table for the refinement comparison of the
key-set claim. -/
def specSummaryFieldList : List String :=
  ["boxScore", "gameInfo", "header", "teams", "id", "plays",
   "winProbability", "leaders", "competitions", "season", "seasonSeries",
   "standings"]

/-- Documented output field list of the play-by-play operation (the spec
names `onIce` as the hockey-specific extra), written from the spec's
external-interface table. -/
def specPlayByPlayFieldList : List String :=
  ["teams", "id", "plays", "competitions", "season", "boxScore",
   "seasonSeries", "standings", "onIce"]

/-- Documented output field list of the picks operation (the table row
names both `winProbability` and `pickcenter`), written from the spec's
external-interface table. -/
def specPicksFieldList : List String :=
  ["id", "gameInfo", "leaders", "header", "teams", "competitions",
   "winProbability", "pickcenter", "againstTheSpread", "odds",
   "seasonSeries", "season", "standings"]

/-- Boolean subset test on key lists. -/
def subsetKeys (xs ys : List String) : Bool := xs.all ys.contains

/-- Whether a projection completed without a thrown error. -/
def isOkE : Except String JsVal → Bool
  | .ok _ => true
  | .error _ => false

/-- The projected value of a successful projection (`undefined` on an
error, never consulted in that case). -/
def valOfE : Except String JsVal → JsVal
  | .ok v => v
  | .error _ => .undefined

/-- Whether a value is an integer number (as opposed to a raw string,
`undefined`, or the NaN sentinel). -/
def isIntVal : JsVal → Bool
  | .num _ => true
  | _ => false

/-- Split a character list at every occurrence of a separator. -/
def splitChar (cs : List Char) (sep : Char) : List String :=
  (cs.foldr
    (fun c acc =>
      match acc with
      | [] => if c = sep then [[], []] else [[c]]
      | g :: gs => if c = sep then [] :: (g :: gs) else (c :: g) :: gs)
    [[]]).map String.mk

/-- The effective query-parameter keys of an outbound request: the keys
of any query string already embedded in the URL (axios merges it with
the params mapping) followed by the keys of the params mapping. -/
def requestParamKeys (q : QuerySpec) : List String :=
  (match splitChar q.url.toList '?' with
   | _ :: qs :: _ => (splitChar qs.toList '&').map
      (fun p => (splitChar p.toList '=').headD "")
   | _ => []) ++ q.params.map Prod.fst

/-- The effective query-parameter keys of a successfully built request. -/
def requestKeysOf : Except String QuerySpec → List String
  | .ok q => requestParamKeys q
  | .error _ => []

/-- The hockey response body carries the header/competition section far
enough for every nested read of the hockey projectors to succeed (a JS
read fails exactly on `undefined`/`null`). -/
def nhlHeaderSectionReadable (d : JsVal) : Bool :=
  jsReadable d && jsReadable (jsGetD d "header") &&
    jsReadable (jsGetD (jsGetD d "header") "competitions") &&
    jsReadable (jsIndexD (jsGetD (jsGetD d "header") "competitions") 0)

/-- The basketball summary response body carries the
`gamepackageJSON.header.competitions` section far enough for every
nested read of `nba.getSummary` to succeed. -/
def nbaSummarySectionReadable (d : JsVal) : Bool :=
  jsReadable d && jsReadable (jsGetD d "gamepackageJSON") &&
    jsReadable (jsGetD (jsGetD d "gamepackageJSON") "header") &&
    jsReadable (jsGetD (jsGetD (jsGetD d "gamepackageJSON") "header") "competitions") &&
    jsReadable (jsIndexD (jsGetD (jsGetD (jsGetD d "gamepackageJSON") "header") "competitions") 0)

/-- Closed form of the hockey play-by-play projection's output under the
readability assumption, proved equal to it below. -/
def nhlPlayByPlayShape (d : JsVal) : JsVal :=
  .obj [("teams", jsGetD (jsIndexD (jsGetD (jsGetD d "header") "competitions") 0) "competitors"),
    ("id", jsParseInt (jsGetD (jsGetD d "header") "id")),
    ("plays", jsGetD d "plays"), ("onIce", jsGetD d "onIce"),
    ("competitions", jsGetD (jsGetD d "header") "competitions"),
    ("season", jsGetD (jsGetD d "header") "season"),
    ("boxScore", jsGetD d "boxscore"),
    ("seasonSeries", jsGetD d "seasonseries"),
    ("standings", jsGetD d "standings")]

/-- Closed form of the hockey summary projection's output under the
readability assumption, proved equal to it below. -/
def nhlSummaryShape (d : JsVal) : JsVal :=
  .obj [("boxScore", jsGetD d "boxscore"), ("gameInfo", jsGetD d "gameInfo"),
    ("header", jsGetD d "header"),
    ("teams", jsGetD (jsIndexD (jsGetD (jsGetD d "header") "competitions") 0) "competitors"),
    ("id", jsParseInt (jsGetD (jsGetD d "header") "id")),
    ("plays", jsGetD d "plays"), ("onIce", jsGetD d "onIce"),
    ("leaders", jsGetD d "leaders"),
    ("competitions", jsGetD (jsGetD d "header") "competitions"),
    ("season", jsGetD (jsGetD d "header") "season"),
    ("seasonSeries", jsGetD d "seasonseries"),
    ("standings", jsGetD d "standings")]

/-- Closed form of the basketball summary projection's output under the
readability assumption, proved equal to it below. -/
def nbaSummaryShape (d : JsVal) : JsVal :=
  .obj [("boxScore", jsGetD d "boxscore"), ("gameInfo", jsGetD d "gameInfo"),
    ("header", jsGetD d "header"),
    ("teams", jsGetD (jsIndexD (jsGetD (jsGetD (jsGetD d "gamepackageJSON") "header") "competitions") 0) "competitors"),
    ("id", jsGetD (jsGetD (jsGetD d "gamepackageJSON") "header") "id"),
    ("plays", jsGetD (jsGetD d "gamepackageJSON") "plays"),
    ("winProbability", jsGetD d "winprobability"),
    ("leaders", jsGetD d "leaders"),
    ("competitions", jsGetD (jsGetD (jsGetD d "gamepackageJSON") "header") "competitions"),
    ("season", jsGetD (jsGetD (jsGetD d "gamepackageJSON") "header") "season"),
    ("seasonSeries", jsGetD (jsGetD d "gamepackageJSON") "seasonseries"),
    ("standings", jsGetD (jsGetD d "gamepackageJSON") "standings")]

/-- A sample hockey summary response body: the header/competition
section is present, while `leaders`, `gameInfo` and `winprobability`
are absent upstream. -/
def nhlSampleSummaryDoc : JsVal :=
  .obj [("boxscore", .obj [("teams", .arr [])]),
    ("header", .obj [("id", .str "401272446"),
      ("competitions", .arr [.obj [("competitors",
        .arr [.obj [("homeAway", .str "home")]])]]),
      ("season", .obj [("year", .num 2021)])]),
    ("plays", .arr []), ("onIce", .arr []),
    ("seasonseries", .arr []), ("standings", .obj [])]

/-- A sample basketball play-by-play response body whose header id is
the string `"401283399"`. -/
def nbaSamplePbpDoc : JsVal :=
  .obj [("gamepackageJSON", .obj [
    ("header", .obj [("id", .str "401283399"),
      ("competitions", .arr [.obj [("competitors", .arr [])]]),
      ("season", .obj [])]),
    ("plays", .arr []), ("boxscore", .obj []),
    ("seasonseries", .arr []), ("standings", .obj [])])]

/-- A sample basketball box-score response body with a box-score
sub-document and a header id but no top-level `gameId`. -/
def nbaSampleBoxDoc : JsVal :=
  .obj [("gamepackageJSON", .obj [
    ("boxscore", .obj [("teams", .arr [])]),
    ("header", .obj [("id", .str "401283399")])])]

/-- A sample basketball summary response body mirroring
`nhlSampleSummaryDoc`: the `gamepackageJSON` section is present while
`leaders` is absent upstream. -/
def nbaSampleSummaryDoc : JsVal :=
  .obj [("boxscore", .obj []), ("gameInfo", .obj []),
    ("header", .obj [("id", .str "401283399")]),
    ("gamepackageJSON", .obj [
      ("header", .obj [("id", .str "401283399"),
        ("competitions", .arr [.obj [("competitors", .arr [])]]),
        ("season", .obj [])]),
      ("plays", .arr []), ("seasonseries", .arr []),
      ("standings", .obj [])]),
    ("winprobability", .arr [])]

example : padDate (.num 4) = "04" := rfl
example : padDate (.num 15) = "15" := rfl
example : padDate .null = "NaN" := rfl
example : datesFragment (.num 2016) (.num 4) (.num 15) = "20160415" := rfl
example : datesFragment .null .null .null = "nullNaNNaN" := rfl
example : jsParseInt (.str "401272446") = .num 401272446 := rfl

@[simp]
theorem exceptPure_eq {α : Type} (a : α) : (pure a : Except String α) = .ok a := rfl

@[simp]
theorem exceptBind_ok {α β : Type} (a : α) (f : α → Except String β) :
    (Except.ok a : Except String α) >>= f = f a := rfl

@[simp]
theorem exceptBind_error {α β : Type} (e : String) (f : α → Except String β) :
    (Except.error e : Except String α) >>= f = Except.error e := rfl

/-- Inversion principle for the `do` chains of the projectors: a bind
succeeds exactly when its head succeeds and its continuation succeeds on
the head's value. -/
theorem exceptBind_eq_ok_iff {α β : Type} (x : Except String α)
    (f : α → Except String β) (b : β) :
    x >>= f = .ok b ↔ ∃ a, x = .ok a ∧ f a = .ok b := by
  cases x with
  | error e => simp
  | ok a => simp

/-- A missing key in an object's field list reads as `undefined`. -/
theorem getEntry_eq_undef (fs : List (String × JsVal)) (k : String)
    (h : fs.any (fun e => e.1 = k) = false) : getEntry fs k = .undefined := by
  induction fs with
  | nil => rfl
  | cons e fs ih =>
      simp only [List.any_cons, Bool.or_eq_false_iff, decide_eq_false_iff_not] at h
      obtain ⟨h1, h2⟩ := h
      obtain ⟨k', v⟩ := e
      simp only [getEntry, if_neg h1]
      exact ih h2

/-- Reading an absent own property yields `undefined` on every readable
value. -/
theorem jsGetD_eq_undef (v : JsVal) (k : String) (h : hasKey v k = false) :
    jsGetD v k = .undefined := by
  cases v <;> try rfl
  exact getEntry_eq_undef _ k h

/-- Overwriting key `k` makes it read back the assigned value. -/
theorem getEntry_setEntry_same (fs : List (String × JsVal)) (k : String) (v : JsVal) :
    getEntry (setEntry fs k v) k = v := by
  induction fs with
  | nil => simp [setEntry, getEntry]
  | cons e fs ih =>
      obtain ⟨k', v'⟩ := e
      by_cases h : k' = k <;> simp [setEntry, getEntry, h, ih]

/-- C10: for every decoded body and every transport status — hence for
every year and group, whose request always yields such a response — the
NBA standings operation never returns successfully: the source reads
`res.content.standings.groups` off the axios response object itself
rather than off the body `res.data`, the response object never carries a
`content` property, so `res.content` is `undefined` and the next read
throws a TypeError. -/
theorem nba_standings_always_fails (d : JsVal) (status : Int) :
    hasKey (mkAxiosResponse d status) "content" = false ∧
    nba.getStandingsProject (mkAxiosResponse d status) =
      .error "TypeError: cannot read properties of undefined (reading standings)" :=
  ⟨rfl, rfl⟩

/-- C7: the hockey standings group mapping sends league, conference and
division to the pairwise distinct numeric level codes 1, 2 and 3, and
every string other than league and conference falls back to division's
code without failing. -/
theorem nhl_standings_group_codes :
    nhl.groupId (.str "league") = 1 ∧
    nhl.groupId (.str "conference") = 2 ∧
    nhl.groupId (.str "division") = 3 ∧
    nhl.groupId (.str "league") ≠ nhl.groupId (.str "conference") ∧
    nhl.groupId (.str "league") ≠ nhl.groupId (.str "division") ∧
    nhl.groupId (.str "conference") ≠ nhl.groupId (.str "division") ∧
    (∀ g : String, g ≠ "league" → g ≠ "conference" →
      nhl.groupId (.str g) = nhl.groupId (.str "division")) := by
  refine ⟨rfl, rfl, rfl, by decide, by decide, by decide, ?_⟩
  intro g h1 h2
  simp [nhl.groupId, h1, h2]

/-- Witness for C7: the fallback branch at the concrete unknown group
value "overall" lands on division's code. -/
theorem nhl_standings_group_codes_witness :
    nhl.groupId (.str "overall") = nhl.groupId (.str "division") :=
  nhl_standings_group_codes.2.2.2.2.2.2 "overall" (by decide) (by decide)

/-- C5 counterexample: invoked with no argument at all (so the options
object is `undefined`), both standings operations throw while
destructuring their parameters, before any request is built — the call
does not succeed as the claim states. -/
theorem getStandings_no_args_throws :
    nhl.getStandingsQuery 2024 .undefined =
      .error "TypeError: cannot destructure property year of undefined" ∧
    nba.getStandingsQuery 2024 .undefined =
      .error "TypeError: cannot destructure property year of undefined" :=
  ⟨rfl, rfl⟩

/-- C5 amended: with an empty options object (any argument carrying
neither a `year` nor a `group` property) the standings operations build
a request whose season is the current calendar year and whose group is
league — level code 1 for hockey, path segment "league" for basketball;
the literal no-argument call instead throws during destructuring. -/
theorem getStandings_defaults (cy : Int) :
    nhl.getStandingsQuery cy (.obj []) = .ok
      { url := "https://site.web.api.espn.com/apis/v2/sports/hockey/nhl/standings"
        params := [("region", .str "us"), ("lang", .str "en"),
          ("contentorigin", .str "espn"), ("type", .num 1),
          ("level", .num 1),
          ("sort", .str "playoffseed:asc,points:desc,gamesplayed:asc,rotwins:desc"),
          ("season", .num cy)] } ∧
    nba.getStandingsQuery cy (.obj []) = .ok
      { url := "http://cdn.espn.com/core/nba/standings/_/season/" ++ toString cy ++ "/group/" ++ "league"
        params := [("xhr", .num 1), ("render", .bool false),
          ("device", .str "desktop"), ("userab", .num 18)] } :=
  ⟨rfl, rfl⟩

/-- C6 counterexample: with year, month and day all absent the
basketball scoreboard request still carries a `dates` query parameter,
embedded in the URL with the garbage value `nullNaNNaN`; the effective
key set of the request is not just `limit`. -/
theorem nba_scoreboard_url_carries_dates :
    nba.getScoreboardQuery (.obj []) = .ok
      { url := "http://site.api.espn.com/apis/site/v2/sports/basketball/nba/scoreboard?dates=nullNaNNaN"
        params := [("limit", .num 300)] } ∧
    requestKeysOf (nba.getScoreboardQuery (.obj [])) = ["dates", "limit"] :=
  ⟨rfl, rfl⟩

/-- C6 amended: with year, month and day all absent, the hockey
scoreboard request omits the date entirely — its effective parameter
keys are exactly `limit` — while the basketball scoreboard's separate
params mapping likewise holds only `limit` but its URL unconditionally
embeds a `dates` query parameter (`nullNaNNaN` in this case). -/
theorem scoreboard_absent_date_params :
    nhl.getScoreboardQuery (.obj []) = .ok
      { url := "http://site.api.espn.com/apis/site/v2/sports/hockey/nhl/scoreboard"
        params := [("limit", .num 300)] } ∧
    requestKeysOf (nhl.getScoreboardQuery (.obj [])) = ["limit"] ∧
    nba.getScoreboardQuery (.obj []) = .ok
      { url := "http://site.api.espn.com/apis/site/v2/sports/basketball/nba/scoreboard" ++ "?dates=" ++ "nullNaNNaN"
        params := [("limit", .num 300)] } :=
  ⟨rfl, rfl, rfl⟩

/-- Overwriting key `k` leaves every other key's reading unchanged. -/
theorem getEntry_setEntry_other (fs : List (String × JsVal)) (k k' : String)
    (v : JsVal) (h : k' ≠ k) :
    getEntry (setEntry fs k v) k' = getEntry fs k' := by
  have hne : k ≠ k' := fun hh => h hh.symm
  induction fs with
  | nil => simp [setEntry, getEntry, hne]
  | cons e fs ih =>
      obtain ⟨k'', v''⟩ := e
      by_cases hk : k'' = k
      · simp [setEntry, getEntry, hk, hne]
      · simp [setEntry, getEntry, hk, ih]

/-- A property read off a readable value succeeds with the looked-up
field value. -/
theorem jsGet_readable (v : JsVal) (k : String) (h : jsReadable v = true) :
    jsGet v k = .ok (jsGetD v k) := by
  simp [jsGet, h]

/-- An index read off a readable value succeeds with the looked-up
element. -/
theorem jsIndex_readable (v : JsVal) (i : Nat) (h : jsReadable v = true) :
    jsIndex v i = .ok (jsIndexD v i) := by
  simp [jsIndex, h]

/-- Under the header-section readability assumption the hockey
play-by-play projection succeeds with its closed-form output. -/
theorem nhl_pbp_project_of_readable (d : JsVal)
    (h : nhlHeaderSectionReadable d = true) :
    nhl.getPlayByPlayProject d = .ok (nhlPlayByPlayShape d) := by
  simp only [nhlHeaderSectionReadable, Bool.and_eq_true] at h
  obtain ⟨⟨⟨h1, h2⟩, h3⟩, h4⟩ := h
  simp [nhl.getPlayByPlayProject, nhlPlayByPlayShape, jsGet_readable,
    jsIndex_readable, h1, h2, h3, h4]

/-- Under the header-section readability assumption the hockey summary
projection succeeds with its closed-form output. -/
theorem nhl_summary_project_of_readable (d : JsVal)
    (h : nhlHeaderSectionReadable d = true) :
    nhl.getSummaryProject d = .ok (nhlSummaryShape d) := by
  simp only [nhlHeaderSectionReadable, Bool.and_eq_true] at h
  obtain ⟨⟨⟨h1, h2⟩, h3⟩, h4⟩ := h
  simp [nhl.getSummaryProject, nhlSummaryShape, jsGet_readable,
    jsIndex_readable, h1, h2, h3, h4]

/-- Under the gamepackage-section readability assumption the basketball
summary projection succeeds with its closed-form output. -/
theorem nba_summary_project_of_readable (d : JsVal)
    (h : nbaSummarySectionReadable d = true) :
    nba.getSummaryProject d = .ok (nbaSummaryShape d) := by
  simp only [nbaSummarySectionReadable, Bool.and_eq_true] at h
  obtain ⟨⟨⟨⟨h1, h2⟩, h3⟩, h4⟩, h5⟩ := h
  simp [nba.getSummaryProject, nbaSummaryShape, jsGet_readable,
    jsIndex_readable, h1, h2, h3, h4, h5]

/-- C3: for every year and month and day with month and day between 1
and 9, the rendered dates string zero-pads month and day to two digits —
with a four-digit year the date component is the eight-character
`YYYY0M0D` — and, at the documented example, `getSchedule(2016, 4, 15)`
embeds the date component `20160415` in the request URL of both sports'
schedule operations. -/
theorem schedule_dates_zero_padded :
    (∀ y m d : Int, 1 ≤ m → m ≤ 9 → 1 ≤ d → d ≤ 9 →
      datesFragment (.num y) (.num m) (.num d) =
        toString y ++ "0" ++ toString m ++ "0" ++ toString d ∧
      ((toString y).length = 4 →
        (datesFragment (.num y) (.num m) (.num d)).length = 8)) ∧
    nhl.getScheduleQuery
        (.obj [("year", .num 2016), ("month", .num 4), ("day", .num 15)]) = .ok
      { url := "http://cdn.espn.com/core/nhl/schedule?dates=20160415"
        params := [("xhr", .num 1), ("render", .bool false),
          ("device", .str "desktop"), ("userab", .num 18)] } ∧
    nba.getScheduleQuery
        (.obj [("year", .num 2016), ("month", .num 4), ("day", .num 15)]) = .ok
      { url := "http://cdn.espn.com/core/nba/schedule?dates=20160415"
        params := [("xhr", .num 1), ("render", .bool false),
          ("device", .str "desktop"), ("userab", .num 18)] } := by
  refine ⟨?_, rfl, rfl⟩
  intro y m d hm1 hm9 hd1 hd9
  have hpm : padDate (.num m) = "0" ++ toString m := by
    simp [padDate, jsParseInt, jsLeNum, jsTemplate, hm9]
  have hpd : padDate (.num d) = "0" ++ toString d := by
    simp [padDate, jsParseInt, jsLeNum, jsTemplate, hd9]
  have hlm : (toString m).length = 1 := by interval_cases m <;> rfl
  have hld : (toString d).length = 1 := by interval_cases d <;> rfl
  have h0 : ("0" : String).length = 1 := rfl
  constructor
  · simp [datesFragment, jsTemplate, hpm, hpd, String.append_assoc]
  · intro hy
    simp [datesFragment, jsTemplate, hpm, hpd, String.length_append,
      hy, hlm, hld, h0]

/-- Witness for C3: the padded fragment at year 2016, month 4, day 5. -/
theorem schedule_dates_zero_padded_witness :
    datesFragment (.num 2016) (.num 4) (.num 5) =
      toString (2016 : Int) ++ "0" ++ toString (4 : Int) ++ "0" ++ toString (5 : Int) ∧
    (datesFragment (.num 2016) (.num 4) (.num 5)).length = 8 :=
  ⟨(schedule_dates_zero_padded.1 2016 4 5 (by decide) (by decide) (by decide)
      (by decide)).1,
   (schedule_dates_zero_padded.1 2016 4 5 (by decide) (by decide) (by decide)
      (by decide)).2 rfl⟩

/-- C4 counterexample: on a raw response whose header/competition
section is absent (here the empty document), the hockey play-by-play
projection throws a TypeError instead of returning a result with
undefined fields. -/
theorem projection_throws_on_missing_header :
    nhl.getPlayByPlayProject (.obj []) =
      .error "TypeError: cannot read properties of undefined (reading competitions)" :=
  rfl

/-- C4 amended: a field whose source path is a single top-level property
of the body is simply undefined when absent and the projection still
succeeds, provided the nested header/competition (hockey) or
gamepackageJSON (basketball) section is readable; but when such an
intermediate section is absent, the projection throws a TypeError
instead of returning a result. -/
theorem projection_gap_behaviour :
    (∀ d : JsVal, jsReadable d = true → jsGetD d "header" = .undefined →
      nhl.getPlayByPlayProject d =
        .error "TypeError: cannot read properties of undefined (reading competitions)") ∧
    (∀ d : JsVal, jsReadable d = true → jsGetD d "gamepackageJSON" = .undefined →
      nba.getSummaryProject d =
        .error "TypeError: cannot read properties of undefined (reading header)") ∧
    (∀ d : JsVal, nhlHeaderSectionReadable d = true →
      isOkE (nhl.getPlayByPlayProject d) = true ∧
      (hasKey d "plays" = false →
        jsGetD (valOfE (nhl.getPlayByPlayProject d)) "plays" = .undefined) ∧
      (hasKey d "boxscore" = false →
        jsGetD (valOfE (nhl.getPlayByPlayProject d)) "boxScore" = .undefined)) := by
  refine ⟨?_, ?_, ?_⟩
  · intro d h1 h2
    have e0 : ∀ k, jsGet d k = .ok (jsGetD d k) := fun k => jsGet_readable d k h1
    have e1 : jsGet JsVal.undefined "competitions" =
        .error "TypeError: cannot read properties of undefined (reading competitions)" := rfl
    simp [nhl.getPlayByPlayProject, e0, h2, e1]
  · intro d h1 h2
    have e0 : ∀ k, jsGet d k = .ok (jsGetD d k) := fun k => jsGet_readable d k h1
    have e1 : jsGet JsVal.undefined "header" =
        .error "TypeError: cannot read properties of undefined (reading header)" := rfl
    simp [nba.getSummaryProject, e0, h2, e1]
  · intro d h
    refine ⟨?_, ?_, ?_⟩
    · rw [nhl_pbp_project_of_readable d h]; rfl
    · intro hp
      rw [nhl_pbp_project_of_readable d h]
      show jsGetD d "plays" = .undefined
      exact jsGetD_eq_undef d "plays" hp
    · intro hb
      rw [nhl_pbp_project_of_readable d h]
      show jsGetD d "boxscore" = .undefined
      exact jsGetD_eq_undef d "boxscore" hb

/-- Witness for C4: a concrete readable document without a header makes
the hockey play-by-play projection throw. -/
theorem projection_gap_behaviour_witness :
    nhl.getPlayByPlayProject (.obj [("plays", .arr [])]) =
      .error "TypeError: cannot read properties of undefined (reading competitions)" :=
  projection_gap_behaviour.1 (.obj [("plays", .arr [])]) rfl rfl

/-- C8: for every raw summary response that carries the
header/competition section (so the projection's nested reads succeed)
but misses the top-level `leaders` field, both sports' summary
operations return without error a result whose `leaders` field is
undefined. -/
theorem summary_missing_leaders_undefined :
    (∀ d : JsVal, nhlHeaderSectionReadable d = true →
      hasKey d "leaders" = false →
      isOkE (nhl.getSummaryProject d) = true ∧
      jsGetD (valOfE (nhl.getSummaryProject d)) "leaders" = .undefined) ∧
    (∀ d : JsVal, nbaSummarySectionReadable d = true →
      hasKey d "leaders" = false →
      isOkE (nba.getSummaryProject d) = true ∧
      jsGetD (valOfE (nba.getSummaryProject d)) "leaders" = .undefined) := by
  constructor
  · intro d h hl
    constructor
    · rw [nhl_summary_project_of_readable d h]; rfl
    · rw [nhl_summary_project_of_readable d h]
      show jsGetD d "leaders" = .undefined
      exact jsGetD_eq_undef d "leaders" hl
  · intro d h hl
    constructor
    · rw [nba_summary_project_of_readable d h]; rfl
    · rw [nba_summary_project_of_readable d h]
      show jsGetD d "leaders" = .undefined
      exact jsGetD_eq_undef d "leaders" hl

/-- Witness for C8: the sample hockey document with no `leaders` field
projects successfully and its `leaders` output is undefined. -/
theorem summary_missing_leaders_witness :
    isOkE (nhl.getSummaryProject nhlSampleSummaryDoc) = true ∧
    jsGetD (valOfE (nhl.getSummaryProject nhlSampleSummaryDoc)) "leaders" = .undefined :=
  summary_missing_leaders_undefined.1 nhlSampleSummaryDoc rfl rfl

/-- C1 counterexample: the hockey summary projection of a well-formed
response succeeds with a key set containing `onIce`, a key outside the
documented summary field list, so the projected key set is not a subset
of that list. -/
theorem summary_onIce_outside_documented_fields :
    isOkE (nhl.getSummaryProject nhlSampleSummaryDoc) = true ∧
    (jsKeys (valOfE (nhl.getSummaryProject nhlSampleSummaryDoc))).contains "onIce" = true ∧
    specSummaryFieldList.contains "onIce" = false ∧
    subsetKeys (jsKeys (valOfE (nhl.getSummaryProject nhlSampleSummaryDoc)))
      specSummaryFieldList = false :=
  ⟨rfl, rfl, rfl, rfl⟩

/-- A successful property read returns exactly the looked-up field
value. -/
theorem jsGet_ok_eq (v : JsVal) (k : String) (w : JsVal)
    (h : jsGet v k = .ok w) : w = jsGetD v k := by
  unfold jsGet at h
  split at h
  · injection h with h1
    exact h1.symm
  · exact Except.noConfusion h

/-- C1 amended: for every operation other than the two box-score
operations, a projected result never carries a key outside the
operation's documented output field list, with the hockey summary's
list extended by the sport-specific `onIce` key.  The field-mapping
projections (play-by-play, summary and picks of both sports) yield key
sets that are subsets of those documented lists, and every remaining
non-box-score operation's successful result is exactly the upstream
(sub-)document its documented output names, so it carries no key beyond
that document's own. -/
theorem projected_keys_subset_documented_fields :
    ((∀ d out, nhl.getPlayByPlayProject d = .ok out →
      subsetKeys (jsKeys out) specPlayByPlayFieldList = true) ∧
    (∀ d out, nba.getPlayByPlayProject d = .ok out →
      subsetKeys (jsKeys out) specPlayByPlayFieldList = true) ∧
    (∀ d out, nhl.getSummaryProject d = .ok out →
      subsetKeys (jsKeys out) (specSummaryFieldList ++ ["onIce"]) = true) ∧
    (∀ d out, nba.getSummaryProject d = .ok out →
      subsetKeys (jsKeys out) specSummaryFieldList = true) ∧
    (∀ d out, nhl.getPicksProject d = .ok out →
      subsetKeys (jsKeys out) specPicksFieldList = true) ∧
    (∀ d out, nba.getPicksProject d = .ok out →
      subsetKeys (jsKeys out) specPicksFieldList = true)) ∧
    ((∀ d out, nhl.getScheduleProject d = .ok out →
      out = jsGetD (jsGetD d "content") "schedule") ∧
    (∀ d out, nba.getScheduleProject d = .ok out →
      out = jsGetD (jsGetD d "content") "schedule") ∧
    (∀ d out, nhl.getScoreboardProject d = .ok out → out = d) ∧
    (∀ d out, nba.getScoreboardProject d = .ok out → out = d) ∧
    (∀ d out, nhl.getStandingsProject d = .ok out → out = d) ∧
    (∀ res out, nba.getStandingsProject res = .ok out →
      out = jsGetD (jsGetD (jsGetD res "content") "standings") "groups") ∧
    (∀ d out, nhl.getTeamListProject d = .ok out → out = d) ∧
    (∀ d out, nhl.getTeamInfoProject d = .ok out → out = d) ∧
    (∀ d out, nhl.getTeamPlayersProject d = .ok out → out = d) ∧
    (∀ d out, nba.getTeamListProject d = .ok out → out = d) ∧
    (∀ d out, nba.getTeamInfoProject d = .ok out → out = d) ∧
    (∀ d out, nba.getTeamPlayersProject d = .ok out → out = d)) := by
  constructor
  · refine ⟨?_, ?_, ?_, ?_, ?_, ?_⟩ <;>
      · intro d out h
        simp only [nhl.getPlayByPlayProject, nba.getPlayByPlayProject,
          nhl.getSummaryProject, nba.getSummaryProject, nhl.getPicksProject,
          nba.getPicksProject, exceptBind_eq_ok_iff, exceptPure_eq,
          Except.ok.injEq] at h
        repeat obtain ⟨_, _, h⟩ := h
        rfl
  · refine ⟨?_, ?_, ?_, ?_, ?_, ?_, ?_, ?_, ?_, ?_, ?_, ?_⟩
    · intro d out h
      simp only [nhl.getScheduleProject, exceptBind_eq_ok_iff] at h
      obtain ⟨c, h1, h2⟩ := h
      rw [jsGet_ok_eq _ _ _ h2, jsGet_ok_eq _ _ _ h1]
    · intro d out h
      simp only [nba.getScheduleProject, exceptBind_eq_ok_iff] at h
      obtain ⟨c, h1, h2⟩ := h
      rw [jsGet_ok_eq _ _ _ h2, jsGet_ok_eq _ _ _ h1]
    · intro d out h
      cases h
      rfl
    · intro d out h
      cases h
      rfl
    · intro d out h
      cases h
      rfl
    · intro res out h
      simp only [nba.getStandingsProject, exceptBind_eq_ok_iff] at h
      obtain ⟨c, h1, s, h2, h3⟩ := h
      rw [jsGet_ok_eq _ _ _ h3, jsGet_ok_eq _ _ _ h2, jsGet_ok_eq _ _ _ h1]
    · intro d out h
      cases h
      rfl
    · intro d out h
      cases h
      rfl
    · intro d out h
      cases h
      rfl
    · intro d out h
      cases h
      rfl
    · intro d out h
      cases h
      rfl
    · intro d out h
      cases h
      rfl

/-- Witness for C1: the amended subset property for the hockey summary
at the sample document. -/
theorem projected_keys_subset_witness :
    subsetKeys (jsKeys (valOfE (nhl.getSummaryProject nhlSampleSummaryDoc)))
      (specSummaryFieldList ++ ["onIce"]) = true :=
  projected_keys_subset_documented_fields.1.2.2.1 nhlSampleSummaryDoc
    (valOfE (nhl.getSummaryProject nhlSampleSummaryDoc)) rfl

/-- C2 counterexample: on a response whose header id is the string
"401283399", the basketball play-by-play operation returns that raw
string as its `id` field — not a value coerced to an integer. -/
theorem nba_playByPlay_id_not_coerced :
    isOkE (nba.getPlayByPlayProject nbaSamplePbpDoc) = true ∧
    jsGetD (valOfE (nba.getPlayByPlayProject nbaSamplePbpDoc)) "id" = .str "401283399" ∧
    isIntVal (jsGetD (valOfE (nba.getPlayByPlayProject nbaSamplePbpDoc)) "id") = false :=
  ⟨rfl, rfl, rfl⟩

/-- C2 amended: the hockey play-by-play operation returns `id` as the
upstream header's id coerced with `parseInt`; the basketball one
returns the `gamepackageJSON` header's id verbatim, with no integer
coercion. -/
theorem playByPlay_id_from_header :
    (∀ d out hid, nhl.getPlayByPlayProject d = .ok out →
      (jsGet d "header" >>= fun h => jsGet h "id") = .ok hid →
      jsGetD out "id" = jsParseInt hid) ∧
    (∀ d out hid, nba.getPlayByPlayProject d = .ok out →
      (jsGet d "gamepackageJSON" >>= fun g =>
        jsGet g "header" >>= fun h => jsGet h "id") = .ok hid →
      jsGetD out "id" = hid) := by
  constructor
  · intro d out hid h hh
    simp only [nhl.getPlayByPlayProject, exceptBind_eq_ok_iff, exceptPure_eq,
      Except.ok.injEq] at h
    obtain ⟨header, e1, comps, e2, c0, e3, teams, e4, hid0, e5, plays, e6,
      onIce, e7, season, e8, bs, e9, ss, e10, st, e11, hout⟩ := h
    simp only [exceptBind_eq_ok_iff] at hh
    obtain ⟨header2, f1, f2⟩ := hh
    rw [e1] at f1
    injection f1 with f1eq
    subst f1eq
    rw [e5] at f2
    injection f2 with f2eq
    subst f2eq
    subst hout
    rfl
  · intro d out hid h hh
    simp only [nba.getPlayByPlayProject, exceptBind_eq_ok_iff, exceptPure_eq,
      Except.ok.injEq] at h
    obtain ⟨gp, e0, header, e1, comps, e2, c0, e3, teams, e4, hid0, e5,
      plays, e6, season, e8, bs, e9, ss, e10, st, e11, hout⟩ := h
    simp only [exceptBind_eq_ok_iff] at hh
    obtain ⟨gp2, f0, header2, f1, f2⟩ := hh
    rw [e0] at f0
    injection f0 with f0eq
    subst f0eq
    rw [e1] at f1
    injection f1 with f1eq
    subst f1eq
    rw [e5] at f2
    injection f2 with f2eq
    subst f2eq
    subst hout
    rfl

/-- Witness for C2: the basketball play-by-play id at the sample
document is the raw header id string. -/
theorem playByPlay_id_from_header_witness :
    jsGetD (valOfE (nba.getPlayByPlayProject nbaSamplePbpDoc)) "id" = .str "401283399" :=
  playByPlay_id_from_header.2 nbaSamplePbpDoc
    (valOfE (nba.getPlayByPlayProject nbaSamplePbpDoc)) (.str "401283399") rfl rfl

/-- C9 counterexample: a basketball response with a box-score
sub-document and a header id but no top-level `gameId` yields a box
score whose injected `id` is `undefined` — not the numeric game id. -/
theorem nba_boxscore_id_not_from_header :
    nba.getBoxScoreProject nbaSampleBoxDoc =
      .ok (.obj [("teams", .arr []), ("id", .undefined)]) ∧
    isIntVal (jsGetD (valOfE (nba.getBoxScoreProject nbaSampleBoxDoc)) "id") = false :=
  ⟨rfl, rfl⟩

/-- C9 amended: each box-score operation returns the upstream box-score
sub-document with only its `id` binding changed — hockey injects the
header id coerced with `parseInt`, basketball injects the top-level
`gameId` of the body verbatim (undefined when absent) — and every key
other than `id` reads back unchanged while `id` reads back the injected
value. -/
theorem boxscore_id_injection :
    (∀ d bs hid, jsGet d "boxscore" = .ok (.obj bs) →
      (jsGet d "header" >>= fun h => jsGet h "id") = .ok hid →
      nhl.getBoxScoreProject d = .ok (.obj (setEntry bs "id" (jsParseInt hid)))) ∧
    (∀ d bs gid,
      (jsGet d "gamepackageJSON" >>= fun g => jsGet g "boxscore") = .ok (.obj bs) →
      jsGet d "gameId" = .ok gid →
      nba.getBoxScoreProject d = .ok (.obj (setEntry bs "id" gid))) ∧
    (∀ bs v, getEntry (setEntry bs "id" v) "id" = v) ∧
    (∀ (bs : List (String × JsVal)) (v : JsVal) (k : String), k ≠ "id" →
      getEntry (setEntry bs "id" v) k = getEntry bs k) := by
  refine ⟨?_, ?_, ?_, ?_⟩
  · intro d bs hid h1 h2
    simp only [exceptBind_eq_ok_iff] at h2
    obtain ⟨header, e1, e2⟩ := h2
    simp [nhl.getBoxScoreProject, h1, e1, e2, jsSet]
  · intro d bs gid h1 h2
    simp only [exceptBind_eq_ok_iff] at h1
    obtain ⟨gp, e1, e2⟩ := h1
    simp [nba.getBoxScoreProject, e1, e2, h2, jsSet]
  · intro bs v
    exact getEntry_setEntry_same bs "id" v
  · intro bs v k hk
    exact getEntry_setEntry_other bs "id" k v hk

/-- Witness for C9: the hockey box score at the sample document carries
the parsed header id and the untouched original binding. -/
theorem boxscore_id_injection_witness :
    nhl.getBoxScoreProject nhlSampleSummaryDoc =
      .ok (.obj (setEntry [("teams", .arr [])] "id" (jsParseInt (.str "401272446")))) :=
  boxscore_id_injection.1 nhlSampleSummaryDoc [("teams", .arr [])]
    (.str "401272446") rfl rfl
